import Mathlib

/-
Verification of the Crashpad bootstrap facade and demo harness.

The facade (crashpad_helper.h, function init) is a thin sequential wrapper
over three external library calls: CrashReportDatabase.Initialize,
Database.GetSettings / Settings.SetUploadsEnabled, and
CrashpadClient.StartHandler.  We embed it as a pure function over an
environment recording whether each external call succeeds, returning the
optional client handle together with the trace of observable events
(stdout lines, stderr lines, database open, settings fetch, settings
write, handler launch).  The demo harness (demo.cpp) is embedded on top.
-/

namespace CrashpadDemo

/-- Parameters handed to CrashpadClient.StartHandler at the call site in
init (crashpad_helper.h, lines 62-63). -/
structure HandlerInvocation where
  handlerPath : String
  database : String
  metrics : String
  url : String
  annotations : List (String × String)
  arguments : List String
  restartable : Bool
  asynchronousStart : Bool
  attachments : List String
deriving DecidableEq

/-- Observable events of a run: console output, console error output,
the external library calls, directory creation by the harness, and the
deliberate fault of the demo. -/
inductive Event where
  | outLine (s : String)
  | errLine (s : String)
  | dbInitialize (path : String)
  | getSettings
  | setUploadsEnabled (b : Bool)
  | startHandler (inv : HandlerInvocation)
  | createDirectory (path : String)
  | fault
deriving DecidableEq

/-- The opaque client handle: init allocates a new CrashpadClient before
starting the handler and returns it on success. -/
inductive CrashpadClient where
  | mk
deriving DecidableEq

/-- Environment of one init invocation: whether each external library
call succeeds.  databaseOk models CrashReportDatabase.Initialize
returning non-null, settingsOk models GetSettings returning non-null,
startHandlerOk models StartHandler returning true. -/
structure CrashpadEnv where
  databaseOk : Bool
  settingsOk : Bool
  startHandlerOk : Bool
deriving DecidableEq

/-- The upload URL hard-coded in init (crashpad_helper.h, line 40). -/
def sentryURL : String :=
  "https://o0.ingest.sentry.io/api/0/minidump/?sentry_key=examplePublicKey"

/-- Lexicographic order on character lists, the ordering used by the
std::map keyed on strings. -/
def charListLt : List Char → List Char → Bool
  | _, [] => false
  | [], _ :: _ => true
  | a :: as, b :: bs =>
    if a < b then true
    else if b < a then false
    else charListLt as bs

/-- One insert-or-assign on a key-ordered association list: the effect of
annotations[key].assign(value) on a std::map kept sorted by key. -/
def mapAssign : List (String × String) → String → String → List (String × String)
  | [], k, v => [(k, v)]
  | (k₀, v₀) :: rest, k, v =>
    if k = k₀ then (k₀, v) :: rest
    else if charListLt k.data k₀.data then (k, v) :: (k₀, v₀) :: rest
    else (k₀, v₀) :: mapAssign rest k v

/-- The parameter record built by init before the StartHandler call
(crashpad_helper.h, lines 40-63): url, annotations with product and
version, empty attachments, the single argument token, database and
metrics directories both equal to the crash directory, restartable true,
asynchronous start false. -/
def initInvocation (appName appVersion handlerPath crashDirPath : String) :
    HandlerInvocation where
  handlerPath := handlerPath
  database := crashDirPath
  metrics := crashDirPath
  url := sentryURL
  annotations := mapAssign (mapAssign [] "product" appName) "version" appVersion
  arguments := ["--no-rate-limit"]
  restartable := true
  asynchronousStart := false
  attachments := []

/-- Embedding of init (crashpad_helper.h, lines 11-71).  Returns the
optional client handle and the trace of observable events in program
order. -/
def init (appName appVersion handlerPath crashDirPath : String)
    (env : CrashpadEnv) : Option CrashpadClient × List Event :=
  let t0 : List Event :=
    [Event.outLine "Initializing crashpad handler",
     Event.dbInitialize crashDirPath]
  if env.databaseOk = false then
    (none, t0 ++ [Event.errLine "Could not initialize database"])
  else
    let t1 := t0 ++ [Event.getSettings]
    if env.settingsOk = false then
      (none, t1 ++ [Event.errLine "Could not get settings"])
    else
      let t2 := t1 ++ [Event.setUploadsEnabled true]
      let t3 := t2 ++
        [Event.startHandler
          (initInvocation appName appVersion handlerPath crashDirPath)]
      if env.startHandlerOk = false then
        (none, t3 ++ [Event.errLine "Could not start handler"])
      else
        (some CrashpadClient.mk, t3)

/-- The settings record persisted in the crash directory: a single
boolean controlling report uploads. -/
structure DiskSettings where
  uploadsEnabled : Bool
deriving DecidableEq

/-- Effect of one event on the persisted settings record: only the
SetUploadsEnabled call writes to it. -/
def applyEvent (d : DiskSettings) : Event → DiskSettings
  | Event.setUploadsEnabled b => { uploadsEnabled := b }
  | _ => d

/-- Replay a trace of events against the persisted settings record. -/
def runTrace (d : DiskSettings) (t : List Event) : DiskSettings :=
  t.foldl applyEvent d

/-- Step tags classifying events, forgetting their payloads. -/
inductive Step where
  | out
  | err
  | dbOpen
  | settingsGet
  | uploadsSet
  | handlerStart
  | dirMake
  | faultStep
deriving DecidableEq

/-- Tag of an event. -/
def Event.tag : Event → Step
  | Event.outLine _ => Step.out
  | Event.errLine _ => Step.err
  | Event.dbInitialize _ => Step.dbOpen
  | Event.getSettings => Step.settingsGet
  | Event.setUploadsEnabled _ => Step.uploadsSet
  | Event.startHandler _ => Step.handlerStart
  | Event.createDirectory _ => Step.dirMake
  | Event.fault => Step.faultStep

/-- The step tags of a trace, in order. -/
def tagsOf (t : List Event) : List Step :=
  t.map Event.tag

theorem init_tags (a b h c : String) (env : CrashpadEnv) :
    tagsOf (init a b h c env).2 =
      if env.databaseOk = false then
        [Step.out, Step.dbOpen, Step.err]
      else if env.settingsOk = false then
        [Step.out, Step.dbOpen, Step.settingsGet, Step.err]
      else if env.startHandlerOk = false then
        [Step.out, Step.dbOpen, Step.settingsGet, Step.uploadsSet,
         Step.handlerStart, Step.err]
      else
        [Step.out, Step.dbOpen, Step.settingsGet, Step.uploadsSet,
         Step.handlerStart] := by
  rcases env with ⟨db, st, sh⟩
  cases db <;> cases st <;> cases sh <;>
    simp [init, tagsOf, Event.tag]

theorem startHandler_mem_inv (a b h c : String) (env : CrashpadEnv)
    (inv : HandlerInvocation)
    (hmem : Event.startHandler inv ∈ (init a b h c env).2) :
    inv = initInvocation a b h c := by
  rcases env with ⟨db, st, sh⟩
  cases db <;> cases st <;> cases sh <;>
    simp [init] at hmem <;> exact hmem

/-- Resolution of a relative path against the working directory, the
effect of fs.absolute in initCrashpad (demo.cpp, line 25). -/
def absolutePath (cwd p : String) : String :=
  cwd ++ "/" ++ p

/-- Path concatenation with the directory separator, the effect of
operator/ on fs.path in initCrashpad (demo.cpp, line 27). -/
def pathJoin (a b : String) : String :=
  a ++ "/" ++ b

/-- Environment of one run of the demo harness: the working directory,
the two build-time handler location macros, and the behaviour of the
external crashpad library calls. -/
structure DemoEnv where
  cwd : String
  handlerDir : String
  handlerName : String
  crashpad : CrashpadEnv
deriving DecidableEq

/-- Embedding of initCrashpad (demo.cpp, lines 24-30): resolve the
crashpad_db directory to an absolute path, create it, build the handler
path from the build-time macros, and call init with the fixed name and
version strings. -/
def initCrashpad (d : DemoEnv) : Option CrashpadClient × List Event :=
  let db := absolutePath d.cwd "crashpad_db"
  let handlerPath := pathJoin d.handlerDir d.handlerName
  let r := init "crashpaddemo" "0.1" handlerPath db d.crashpad
  (r.1, Event.createDirectory db :: r.2)

/-- Trace of function3 (demo.cpp, lines 8-12): print, then the memset
write through a null pointer, which faults and terminates the process,
so the return statement is never reached. -/
def function3Trace : List Event :=
  [Event.outLine "Entering function3()... BOOM!", Event.fault]

/-- Trace of function2 (demo.cpp, lines 14-17). -/
def function2Trace : List Event :=
  Event.outLine "Entering function2()" :: function3Trace

/-- Trace of function1 (demo.cpp, lines 19-22). -/
def function1Trace : List Event :=
  Event.outLine "Entering function1()" :: function2Trace

/-- How a run of the harness ends: a normal exit with a code, or a
process-terminating fault. -/
inductive ExitStatus where
  | code (c : Int)
  | crashed
deriving DecidableEq

/-- Embedding of main (demo.cpp, lines 32-41): print, bootstrap, on an
absent handle print the failure message and return -1, otherwise run
the faulting call chain; the trailing return 0 is unreachable because
function3 always faults. -/
def mainRun (d : DemoEnv) : ExitStatus × List Event :=
  let t0 : List Event := [Event.outLine "Entering main()"]
  let r := initCrashpad d
  match r.1 with
  | none =>
    (ExitStatus.code (-1),
     t0 ++ r.2 ++ [Event.outLine "Crashpad failed to unitialize."])
  | some _ =>
    (ExitStatus.crashed, t0 ++ r.2 ++ function1Trace)

/-- Recognizer for the failure message printed by main when the
bootstrap returns an absent handle. -/
def isFailureMsg : Event → Bool
  | Event.outLine s => s == "Crashpad failed to unitialize."
  | _ => false

theorem mapAssign_product_version (a b : String) :
    mapAssign (mapAssign [] "product" a) "version" b =
      [("product", a), ("version", b)] := by
  have h1 : ¬ ("version" = "product") := by decide
  have h2 : charListLt "version".data "product".data = false := by decide
  simp [mapAssign, h1, h2]

/-- C1: init returns a non-null client handle if and only if all three
prerequisite steps succeed; when any of database open, settings fetch or
handler launch fails the result is absent, and on a live handle the
database has been opened, uploads are enabled in the persisted settings,
and the handler has been started. -/
theorem init_success_iff (a b h c : String) (env : CrashpadEnv)
    (d : DiskSettings) :
    ((init a b h c env).1.isSome = true ↔
      env.databaseOk = true ∧ env.settingsOk = true ∧
        env.startHandlerOk = true) ∧
    ((init a b h c env).1.isSome = true →
      Step.dbOpen ∈ tagsOf (init a b h c env).2 ∧
      (runTrace d (init a b h c env).2).uploadsEnabled = true ∧
      Step.handlerStart ∈ tagsOf (init a b h c env).2) := by
  rcases env with ⟨db, st, sh⟩
  cases db <;> cases st <;> cases sh <;>
    simp [init, tagsOf, Event.tag, runTrace, applyEvent]

/-- Witness for C1 at a concrete successful environment. -/
theorem init_success_iff_witness :
    Step.handlerStart ∈
      tagsOf (init "crashpaddemo" "0.1" "/h" "/db" ⟨true, true, true⟩).2 ∧
    (runTrace ⟨false⟩
      (init "crashpaddemo" "0.1" "/h" "/db" ⟨true, true, true⟩).2
      ).uploadsEnabled = true := by
  have w := (init_success_iff "crashpaddemo" "0.1" "/h" "/db"
    ⟨true, true, true⟩ ⟨false⟩).2 (by decide)
  exact ⟨w.2.2, w.2.1⟩

/-- C2: every handler launch performed by init uses exactly the shape of
parameters built in the body: database and metrics directories both equal
to crashDirPath, the fixed embedded URL, the argument token
--no-rate-limit, an empty attachment list, restartable true, and
asynchronous start false. -/
theorem init_handler_parameters (a b h c : String) (env : CrashpadEnv)
    (inv : HandlerInvocation)
    (hmem : Event.startHandler inv ∈ (init a b h c env).2) :
    inv.handlerPath = h ∧ inv.database = c ∧ inv.metrics = c ∧
    inv.url = sentryURL ∧ "--no-rate-limit" ∈ inv.arguments ∧
    inv.attachments = [] ∧ inv.restartable = true ∧
    inv.asynchronousStart = false := by
  rw [startHandler_mem_inv a b h c env inv hmem]
  simp [initInvocation]

/-- Witness for C2 at a concrete environment in which the handler is
launched. -/
theorem init_handler_parameters_witness :
    (initInvocation "crashpaddemo" "0.1" "/h" "/db").metrics = "/db" ∧
    "--no-rate-limit" ∈
      (initInvocation "crashpaddemo" "0.1" "/h" "/db").arguments := by
  have w := init_handler_parameters "crashpaddemo" "0.1" "/h" "/db"
    ⟨true, true, true⟩ (initInvocation "crashpaddemo" "0.1" "/h" "/db")
    (by simp [init])
  exact ⟨w.2.2.1, w.2.2.2.2.1⟩

/-- C3: the annotation map handed to the handler holds exactly the two
entries product = appName and version = appVersion, the values forwarded
unchanged, and no other key. -/
theorem init_annotations_exact (a b h c : String) (env : CrashpadEnv)
    (inv : HandlerInvocation)
    (hmem : Event.startHandler inv ∈ (init a b h c env).2) :
    inv.annotations = [("product", a), ("version", b)] := by
  rw [startHandler_mem_inv a b h c env inv hmem]
  simp [initInvocation, mapAssign_product_version]

/-- Witness for C3 at a concrete environment in which the handler is
launched. -/
theorem init_annotations_exact_witness :
    (initInvocation "crashpaddemo" "0.1" "/h" "/db").annotations =
      [("product", "crashpaddemo"), ("version", "0.1")] :=
  init_annotations_exact "crashpaddemo" "0.1" "/h" "/db"
    ⟨true, true, true⟩ (initInvocation "crashpaddemo" "0.1" "/h" "/db")
    (by simp [init])

/-- C10: every invocation of init, succeeding or failing, emits the
stdout line Initializing crashpad handler as its very first observable
event, before any database, settings or handler operation. -/
theorem init_first_event_banner (a b h c : String) (env : CrashpadEnv) :
    (init a b h c env).2.head? =
      some (Event.outLine "Initializing crashpad handler") := by
  rcases env with ⟨db, st, sh⟩
  cases db <;> cases st <;> cases sh <;> simp [init]

/-- C4: the steps of init occur strictly in the order database open,
settings fetch, uploads-enabled write, handler launch, and the handler is
only ever launched when database open and settings fetch both
succeeded. -/
theorem init_step_order (a b h c : String) (env : CrashpadEnv)
    (hs : Step.handlerStart ∈ tagsOf (init a b h c env).2) :
    env.databaseOk = true ∧ env.settingsOk = true ∧
    List.indexOf Step.dbOpen (tagsOf (init a b h c env).2) <
      List.indexOf Step.settingsGet (tagsOf (init a b h c env).2) ∧
    List.indexOf Step.settingsGet (tagsOf (init a b h c env).2) <
      List.indexOf Step.uploadsSet (tagsOf (init a b h c env).2) ∧
    List.indexOf Step.uploadsSet (tagsOf (init a b h c env).2) <
      List.indexOf Step.handlerStart (tagsOf (init a b h c env).2) := by
  rcases env with ⟨db, st, sh⟩
  rw [init_tags] at hs ⊢
  cases db <;> cases st <;> cases sh <;> revert hs <;> decide

/-- Witness for C4 at a concrete environment in which the handler is
launched. -/
theorem init_step_order_witness :
    List.indexOf Step.uploadsSet
        (tagsOf (init "a" "b" "/h" "/db" ⟨true, true, true⟩).2) <
      List.indexOf Step.handlerStart
        (tagsOf (init "a" "b" "/h" "/db" ⟨true, true, true⟩).2) :=
  (init_step_order "a" "b" "/h" "/db" ⟨true, true, true⟩
    (by decide)).2.2.2.2

/-- C5: a failing invocation of init emits exactly one diagnostic line on
standard error, the line naming the step that failed, and a successful
invocation emits none. -/
theorem init_diagnostics (a b h c : String) (env : CrashpadEnv) :
    ((tagsOf (init a b h c env).2).count Step.err =
      if (init a b h c env).1.isSome then 0 else 1) ∧
    (env.databaseOk = false →
      Event.errLine "Could not initialize database" ∈
        (init a b h c env).2) ∧
    (env.databaseOk = true → env.settingsOk = false →
      Event.errLine "Could not get settings" ∈ (init a b h c env).2) ∧
    (env.databaseOk = true → env.settingsOk = true →
      env.startHandlerOk = false →
      Event.errLine "Could not start handler" ∈ (init a b h c env).2) := by
  rcases env with ⟨db, st, sh⟩
  cases db <;> cases st <;> cases sh <;>
    simp [init, tagsOf, Event.tag]

/-- Witness for C5 at a concrete environment in which the handler launch
fails. -/
theorem init_diagnostics_witness :
    Event.errLine "Could not start handler" ∈
      (init "a" "b" "/h" "/db" ⟨true, true, false⟩).2 :=
  (init_diagnostics "a" "b" "/h" "/db" ⟨true, true, false⟩).2.2.2
    rfl rfl rfl

/-- C7: the uploads-enabled write is an idempotent re-assertion: against
a writable directory each of two consecutive init calls yields a live
handle, and after each call the persisted settings record shows
uploadsEnabled true, whatever its initial contents. -/
theorem init_idempotent_settings (a b h c : String) (env : CrashpadEnv)
    (d0 : DiskSettings)
    (hdb : env.databaseOk = true) (hst : env.settingsOk = true)
    (hsh : env.startHandlerOk = true) :
    (init a b h c env).1.isSome = true ∧
    (runTrace d0 (init a b h c env).2).uploadsEnabled = true ∧
    (runTrace (runTrace d0 (init a b h c env).2)
        (init a b h c env).2).uploadsEnabled = true := by
  rcases env with ⟨db, st, sh⟩
  cases db <;> cases st <;> cases sh <;>
    simp_all [init, runTrace, applyEvent]

/-- Witness for C7 at a concrete writable environment. -/
theorem init_idempotent_settings_witness :
    (runTrace (runTrace ⟨false⟩
        (init "a" "b" "/h" "/db" ⟨true, true, true⟩).2)
      (init "a" "b" "/h" "/db" ⟨true, true, true⟩).2).uploadsEnabled =
      true :=
  (init_idempotent_settings "a" "b" "/h" "/db" ⟨true, true, true⟩
    ⟨false⟩ rfl rfl rfl).2.2

/-- C8: init is not atomic on error: when the handler launch fails after
database open and settings fetch succeeded, the database has been opened,
uploadsEnabled true has been written and persists, and init still returns
an absent handle. -/
theorem init_handler_failure_not_rolled_back (a b h c : String)
    (env : CrashpadEnv) (d0 : DiskSettings)
    (hdb : env.databaseOk = true) (hst : env.settingsOk = true)
    (hsh : env.startHandlerOk = false) :
    (init a b h c env).1 = none ∧
    Step.dbOpen ∈ tagsOf (init a b h c env).2 ∧
    Event.setUploadsEnabled true ∈ (init a b h c env).2 ∧
    (runTrace d0 (init a b h c env).2).uploadsEnabled = true := by
  rcases env with ⟨db, st, sh⟩
  cases db <;> cases st <;> cases sh <;>
    simp_all [init, tagsOf, Event.tag, runTrace, applyEvent]

/-- Witness for C8 at a concrete environment in which the handler launch
fails. -/
theorem init_handler_failure_not_rolled_back_witness :
    (init "a" "b" "/h" "/db" ⟨true, true, false⟩).1 = none ∧
    (runTrace ⟨false⟩
      (init "a" "b" "/h" "/db" ⟨true, true, false⟩).2).uploadsEnabled =
      true := by
  have w := init_handler_failure_not_rolled_back "a" "b" "/h" "/db"
    ⟨true, true, false⟩ ⟨false⟩ rfl rfl rfl
  exact ⟨w.1, w.2.2.2⟩

/-- C6: the harness calls the facade exactly once, before any code that
can fault; on an absent handle it prints a single failure message and
exits with the non-zero code -1; and no run of the harness exits with
code 0, graceful completion being unreachable past the deliberate
fault. -/
theorem main_harness_contract (d : DemoEnv) :
    (tagsOf (mainRun d).2).count Step.dbOpen = 1 ∧
    (Step.faultStep ∈ tagsOf (mainRun d).2 →
      List.indexOf Step.dbOpen (tagsOf (mainRun d).2) <
        List.indexOf Step.faultStep (tagsOf (mainRun d).2)) ∧
    ((initCrashpad d).1 = none →
      (mainRun d).1 = ExitStatus.code (-1) ∧
      List.countP isFailureMsg (mainRun d).2 = 1) ∧
    ((initCrashpad d).1.isSome = true →
      List.countP isFailureMsg (mainRun d).2 = 0) ∧
    (mainRun d).1 ≠ ExitStatus.code 0 := by
  rcases d with ⟨cwd, hd, hn, db, st, sh⟩
  cases db <;> cases st <;> cases sh <;>
    simp [mainRun, initCrashpad, init, tagsOf, Event.tag, isFailureMsg,
      function1Trace, function2Trace, function3Trace, List.count,
      List.countP] <;>
    exact ⟨rfl, rfl⟩

/-- Witness for C6: on an absent handle the harness exits with -1 after
one failure message, and on a live handle no failure message appears. -/
theorem main_harness_contract_witness :
    ((mainRun ⟨"/w", "/hd", "hn", false, true, true⟩).1 =
        ExitStatus.code (-1) ∧
      List.countP isFailureMsg
        (mainRun ⟨"/w", "/hd", "hn", false, true, true⟩).2 = 1) ∧
    List.countP isFailureMsg
      (mainRun ⟨"/w", "/hd", "hn", true, true, true⟩).2 = 0 :=
  ⟨(main_harness_contract ⟨"/w", "/hd", "hn", false, true, true⟩).2.2.1
      (by decide),
   (main_harness_contract ⟨"/w", "/hd", "hn", true, true, true⟩).2.2.2.1
      (by decide)⟩

/-- C9: initCrashpad resolves crashpad_db against the working directory,
creates that directory first, and passes the resulting absolute path as
the crash directory to init together with the fixed application name
crashpaddemo and version 0.1. -/
theorem initCrashpad_establishes_precondition (d : DemoEnv) :
    (initCrashpad d).2.head? =
      some (Event.createDirectory (absolutePath d.cwd "crashpad_db")) ∧
    Event.dbInitialize (absolutePath d.cwd "crashpad_db") ∈
      (initCrashpad d).2 ∧
    (∀ inv : HandlerInvocation,
      Event.startHandler inv ∈ (initCrashpad d).2 →
        inv.database = absolutePath d.cwd "crashpad_db" ∧
        inv.annotations =
          [("product", "crashpaddemo"), ("version", "0.1")]) := by
  refine ⟨rfl, ?_, ?_⟩
  · rcases d with ⟨cwd, hd, hn, db, st, sh⟩
    cases db <;> cases st <;> cases sh <;> simp [initCrashpad, init]
  · intro inv hmem
    have hmem2 : Event.startHandler inv ∈
        (init "crashpaddemo" "0.1" (pathJoin d.handlerDir d.handlerName)
          (absolutePath d.cwd "crashpad_db") d.crashpad).2 := by
      simpa [initCrashpad] using hmem
    rw [startHandler_mem_inv _ _ _ _ _ inv hmem2]
    simp [initInvocation, mapAssign_product_version]

/-- Witness for C9 at a concrete demo environment in which the handler
is launched. -/
theorem initCrashpad_establishes_precondition_witness :
    (initInvocation "crashpaddemo" "0.1" (pathJoin "/hd" "hn")
        (absolutePath "/w" "crashpad_db")).database =
      absolutePath "/w" "crashpad_db" :=
  ((initCrashpad_establishes_precondition
      ⟨"/w", "/hd", "hn", true, true, true⟩).2.2
    (initInvocation "crashpaddemo" "0.1" (pathJoin "/hd" "hn")
      (absolutePath "/w" "crashpad_db"))
    (by simp [initCrashpad, init])).1

end CrashpadDemo
